import Mathlib

/-!
Shallow embedding of the AMKO GSLB code: the global filter (gslbutils),
the ingress and route metadata objects (k8sobjects), the member-cluster
store helpers (gslb/ingestion/member_controllers.go) and the retry layer.
Mutating Go methods are rendered as functions returning the updated value.
-/

set_option maxRecDepth 4000

/-- Model of utils.Hash from the container-lib dependency: FNV-1a, 32 bit,
folded over the characters of the string (code points coincide with bytes
for the ASCII strings the repository hashes), truncated modulo 2^32 at
every step exactly as uint32 arithmetic does. -/
def utilsHash (s : String) : Nat :=
  s.data.foldl (fun h c => ((h ^^^ c.toNat) * 16777619) % 4294967296) 2166136261

/-- PresentInList from gslbutils: true iff key occurs in strList. -/
def PresentInList (key : String) (strList : List String) : Bool :=
  strList.any (fun str => str == key)

/-- Label from gslbutils: one key and value pair of a selector. -/
structure Label where
  Key : String
  Value : String
deriving DecidableEq, Repr

/-- ClusterTraffic from gslbutils: the weight of traffic routed to one
cluster. Weight is an int32 in Go holding a small non-negative ratio; it is
modelled as Nat. -/
structure ClusterTraffic where
  ClusterName : String
  Weight : Nat
deriving DecidableEq, Repr

/-- NamespaceFilter from gslbutils: a namespace selector label, the
namespaces selected so far per cluster (a Go map rendered as an association
list), and a cached checksum set at creation time. -/
structure NamespaceFilter where
  FilterLabel : Label
  SelectedNS : List (String × List String)
  Checksum : Nat
deriving DecidableEq, Repr

/-- GlobalFilter from gslbutils. The AppFilter struct only wraps a Label, so
the AppFilter field is an Option Label; nil pointers become none. -/
structure GlobalFilter where
  AppFilter : Option Label
  NSFilter : Option NamespaceFilter
  TrafficSplit : List ClusterTraffic
  ApplicableClusters : List String
  Checksum : Nat
deriving DecidableEq, Repr

/-- GetNewGlobalFilter from gslbutils: the empty filter; the Checksum field
is left at the Go zero value 0. -/
def GetNewGlobalFilter : GlobalFilter :=
  { AppFilter := none, NSFilter := none, TrafficSplit := [],
    ApplicableClusters := [], Checksum := 0 }

/-- Traffic split element of a GlobalDeploymentPolicy spec. -/
structure TrafficSplitElem where
  Cluster : String
  Weight : Nat
deriving DecidableEq, Repr

/-- Match rules of a GlobalDeploymentPolicy: the two selector label maps,
each a Go map rendered as an association list. -/
structure MatchRules where
  AppSelector : List (String × String)
  NamespaceSelector : List (String × String)
deriving DecidableEq, Repr

/-- Spec of a GlobalDeploymentPolicy document. -/
structure GDPSpec where
  MatchRules : MatchRules
  MatchClusters : List String
  TrafficSplit : List TrafficSplitElem
deriving DecidableEq, Repr

/-- GlobalDeploymentPolicy document (namespace and name from ObjectMeta). -/
structure GlobalDeploymentPolicy where
  Namespace : String
  Name : String
  Spec : GDPSpec
deriving DecidableEq, Repr

/-- getLabelKeyAndValue from gslbutils: the first pair of the label map, or
two empty strings for an empty map. The code only calls it on maps with
exactly one entry, where Go map iteration order does not matter. -/
def getLabelKeyAndValue (lbl : List (String × String)) : String × String :=
  match lbl with
  | [] => ("", "")
  | (k, v) :: _ => (k, v)

/-- createNewNSFilter from gslbutils: builds a NamespaceFilter whose cached
checksum is the hash of key concatenated with value. -/
def createNewNSFilter (lbl : List (String × String)) : NamespaceFilter :=
  let kv := getLabelKeyAndValue lbl
  { FilterLabel := { Key := kv.1, Value := kv.2 },
    SelectedNS := [],
    Checksum := utilsHash (kv.1 ++ kv.2) }

/-- Checksum value summed by GlobalFilter.ComputeChecksum: hash of the app
label pair if present, plus the cached NSFilter checksum if present, plus
the hash of every applicable cluster, plus the hash of every traffic split
entry rendered as name concatenated with the decimal weight, as uint32
arithmetic (modulo 2^32). -/
def checksumOf (gf : GlobalFilter) : Nat :=
  ((match gf.AppFilter with
    | some l => utilsHash (l.Key ++ l.Value)
    | none => 0) +
   (match gf.NSFilter with
    | some n => n.Checksum
    | none => 0) +
   (gf.ApplicableClusters.map utilsHash).sum +
   (gf.TrafficSplit.map
      (fun ts => utilsHash (ts.ClusterName ++ Nat.repr ts.Weight))).sum)
  % 4294967296

/-- ComputeChecksum from gslbutils: stores the checksum of the current
content into the Checksum field. -/
def GlobalFilter.ComputeChecksum (gf : GlobalFilter) : GlobalFilter :=
  { gf with Checksum := checksumOf gf }

/-- AddToFilter from gslbutils. Sets AppFilter (resp. NSFilter) only when
the corresponding selector label map has exactly one entry, replaces
ApplicableClusters, appends (does not replace) the traffic split entries of
the policy to the existing TrafficSplit, and recomputes the checksum. -/
def GlobalFilter.AddToFilter (gf : GlobalFilter)
    (gdp : GlobalDeploymentPolicy) : GlobalFilter :=
  let gf1 :=
    if gdp.Spec.MatchRules.AppSelector.length == 1 then
      let kv := getLabelKeyAndValue gdp.Spec.MatchRules.AppSelector
      { gf with AppFilter := some { Key := kv.1, Value := kv.2 } }
    else gf
  let nsf := createNewNSFilter gdp.Spec.MatchRules.NamespaceSelector
  let gf2 :=
    if gdp.Spec.MatchRules.NamespaceSelector.length == 1 then
      { gf1 with NSFilter := some nsf }
    else gf1
  let gf3 := { gf2 with ApplicableClusters := gdp.Spec.MatchClusters }
  let newTS := gdp.Spec.TrafficSplit.map
    (fun ts => { ClusterName := ts.Cluster, Weight := ts.Weight : ClusterTraffic })
  let gf4 := { gf3 with TrafficSplit := gf3.TrafficSplit ++ newTS }
  gf4.ComputeChecksum

/-- isTrafficWeightChanged from gslbutils: true iff the traffic split
lengths differ, or some member of the old list has no member of the new
list with its cluster name, or some member of the new list shares its
cluster name with an old member but carries a different weight. -/
def isTrafficWeightChanged (newGDP oldGDP : GlobalDeploymentPolicy) : Bool :=
  if oldGDP.Spec.TrafficSplit.length != newGDP.Spec.TrafficSplit.length then
    true
  else
    oldGDP.Spec.TrafficSplit.any (fun oldMember =>
      let found := newGDP.Spec.TrafficSplit.any
        (fun newMember => newMember.Cluster == oldMember.Cluster)
      let weightDiffers := newGDP.Spec.TrafficSplit.any
        (fun newMember => newMember.Cluster == oldMember.Cluster &&
          newMember.Weight != oldMember.Weight)
      weightDiffers || !found)

/-- UpdateGlobalFilter from gslbutils: builds a candidate filter from the
new policy on a fresh GlobalFilter, and if its checksum matches the live
checksum returns the filter unchanged with (false, false); otherwise copies
the candidate fields over and returns true together with
isTrafficWeightChanged of the two policies. -/
def GlobalFilter.UpdateGlobalFilter (gf : GlobalFilter)
    (oldGDP newGDP : GlobalDeploymentPolicy) :
    GlobalFilter × Bool × Bool :=
  let nf := GetNewGlobalFilter.AddToFilter newGDP
  if gf.Checksum == nf.Checksum then
    (gf, false, false)
  else
    ({ gf with
        AppFilter := nf.AppFilter,
        NSFilter := nf.NSFilter,
        TrafficSplit := nf.TrafficSplit,
        ApplicableClusters := nf.ApplicableClusters,
        Checksum := nf.Checksum },
      true, isTrafficWeightChanged newGDP oldGDP)

/-- HTTPIngressPath of networking v1beta1: only the Path field matters. -/
structure HTTPIngressPath where
  Path : String
deriving DecidableEq, Repr

/-- HTTPIngressRuleValue of networking v1beta1. -/
structure HTTPIngressRuleValue where
  Paths : List HTTPIngressPath
deriving DecidableEq, Repr

/-- IngressRule of networking v1beta1: the HTTP pointer becomes an Option. -/
structure IngressRule where
  Host : String
  HTTP : Option HTTPIngressRuleValue
deriving DecidableEq, Repr

/-- IngressTLS of networking v1beta1: the hosts covered by one TLS entry. -/
structure IngressTLS where
  Hosts : List String
deriving DecidableEq, Repr

/-- IngressSpec of networking v1beta1, restricted to the fields the code
reads. -/
structure IngressSpec where
  Rules : List IngressRule
  TLS : List IngressTLS
deriving DecidableEq, Repr

/-- Ingress object, restricted to the fields the code reads: name,
namespace and labels from ObjectMeta (the Go label map rendered as an
association list), and the spec. -/
structure Ingress where
  Name : String
  Namespace : String
  Labels : List (String × String)
  Spec : IngressSpec
deriving DecidableEq, Repr

/-- Path key of one HTTPIngressPath inside getPathsForHost: the path, or
the root path for an empty string. -/
def pathKeyOf (p : HTTPIngressPath) : String :=
  if p.Path != "" then p.Path else "/"

/-- Dedup append used throughout the code: skip the element when already
present, else append at the end. -/
def dedupAppend (acc : List String) (s : String) : List String :=
  if PresentInList s acc then acc else acc ++ [s]

/-- Loop body of getPathsForHost: rules whose host differs are skipped;
the first rule whose host matches contributes its HTTP paths (none when the
HTTP pointer is nil) and then the loop breaks unconditionally, so rules
after the first match are never read. -/
def getPathsForHostLoop (host : String) : List IngressRule → List String
  | [] => []
  | rule :: rest =>
    if rule.Host != host then getPathsForHostLoop host rest
    else
      match rule.HTTP with
      | none => []
      | some http => http.Paths.foldl (fun acc p => dedupAppend acc (pathKeyOf p)) []

/-- getPathsForHost from k8sobjects: the deduplicated path keys of the
first rule matching the host, defaulting to the root path when that yields
nothing. -/
def getPathsForHost (host : String) (ingress : Ingress) : List String :=
  let pathList := getPathsForHostLoop host ingress.Spec.Rules
  if pathList.length == 0 then ["/"] else pathList

/-- getTLSHosts from k8sobjects: the deduplicated hosts of all TLS entries
of the ingress, in order of first appearance. -/
def getTLSHosts (ingress : Ingress) : List String :=
  ingress.Spec.TLS.foldl (fun acc t => t.Hosts.foldl dedupAppend acc) []

/-- IngressHostMeta from k8sobjects. -/
structure IngressHostMeta where
  Cluster : String
  IngName : String
  ObjName : String
  Namespace : String
  Hostname : String
  IPAddr : String
  Labels : List (String × String)
  Paths : List String
  TLS : Bool
deriving DecidableEq, Repr

/-- Hostname and IP pair returned by gslbutils.IngressGetIPAddrs for an
ingress status entry; that function lives outside the sources at hand, so
the list it returns is taken as an input of GetIngressHostMeta. -/
structure IngressHostIP where
  Hostname : String
  IPAddr : String
deriving DecidableEq, Repr

/-- GetIngressHostMeta from k8sobjects: one IngressHostMeta per hostname
and IP pair of the ingress status, with ObjName built from the ingress name
and the hostname, the path list from getPathsForHost and the TLS flag true
iff the hostname occurs among the TLS hosts. -/
def GetIngressHostMeta (ingress : Ingress) (cname : String)
    (hostIPList : List IngressHostIP) : List IngressHostMeta :=
  let tlsHosts := getTLSHosts ingress
  hostIPList.map (fun hip =>
    { IngName := ingress.Name,
      Namespace := ingress.Namespace,
      Hostname := hip.Hostname,
      IPAddr := hip.IPAddr,
      Cluster := cname,
      ObjName := ingress.Name ++ "/" ++ hip.Hostname,
      Labels := ingress.Labels,
      Paths := getPathsForHost hip.Hostname ingress,
      TLS := PresentInList hip.Hostname tlsHosts })

/-- GetPort on IngressHostMeta: always the unsupported error (the Go
message uses a contraction, rendered here without the apostrophe). -/
def IngressHostMeta.GetPort (ing : IngressHostMeta) : Except String Int :=
  Except.error "ingress object does not support GetPort function"

/-- GetProtocol on IngressHostMeta: always the unsupported error. -/
def IngressHostMeta.GetProtocol (ing : IngressHostMeta) : Except String String :=
  Except.error "ingress object does not support GetProtocol function"

/-- RouteMeta from k8sobjects. Port is an int32 in Go, modelled as Int. -/
structure RouteMeta where
  Cluster : String
  Name : String
  Namespace : String
  Hostname : String
  IPAddr : String
  Labels : List (String × String)
  Paths : List String
  TLS : Bool
  Port : Int
  Protocol : String
  Passthrough : Bool
deriving DecidableEq, Repr

/-- GetPort on RouteMeta: the stored port for passthrough routes, the
unsupported error otherwise. -/
def RouteMeta.GetPort (route : RouteMeta) : Except String Int :=
  if route.Passthrough then Except.ok route.Port
  else Except.error "route object does not support GetPort function"

/-- GetProtocol on RouteMeta: the stored protocol for passthrough routes,
the unsupported error otherwise. -/
def RouteMeta.GetProtocol (route : RouteMeta) : Except String String :=
  if route.Passthrough then Except.ok route.Protocol
  else Except.error "route object does not support GetProtocol support"

/-- applyAppFilter from k8sobjects: true iff some label pair of the object
equals the key and value of the application filter. -/
def applyAppFilter (ihmLabels : List (String × String)) (appFilter : Label) : Bool :=
  ihmLabels.any (fun kv => kv.1 == appFilter.Key && kv.2 == appFilter.Value)

/-- ApplyFilter on IngressHostMeta, with the global filter passed
explicitly instead of read from the package variable. Reject when the
cluster is not applicable; then, when a namespace filter exists, require
the namespace of the object among the selected namespaces of its cluster
and, when an application filter also exists, a matching label; with no
namespace filter, require a matching application filter. -/
def IngressHostMeta.ApplyFilter (ihm : IngressHostMeta) (gf : GlobalFilter) : Bool :=
  if !(PresentInList ihm.Cluster gf.ApplicableClusters) then false
  else
    match gf.NSFilter with
    | some nsFilter =>
      match nsFilter.SelectedNS.lookup ihm.Cluster with
      | none => false
      | some nsList =>
        if PresentInList ihm.Namespace nsList then
          match gf.AppFilter with
          | none => true
          | some appFilter => applyAppFilter ihm.Labels appFilter
        else false
    | none =>
      match gf.AppFilter with
      | none => false
      | some appFilter => applyAppFilter ihm.Labels appFilter

/-- ApplyFilter on RouteMeta: same decision tree as the ingress variant. -/
def RouteMeta.ApplyFilter (route : RouteMeta) (gf : GlobalFilter) : Bool :=
  if !(PresentInList route.Cluster gf.ApplicableClusters) then false
  else
    match gf.NSFilter with
    | some nsFilter =>
      match nsFilter.SelectedNS.lookup route.Cluster with
      | none => false
      | some nsList =>
        if PresentInList route.Namespace nsList then
          match gf.AppFilter with
          | none => true
          | some appFilter => applyAppFilter route.Labels appFilter
        else false
    | none =>
      match gf.AppFilter with
      | none => false
      | some appFilter => applyAppFilter route.Labels appFilter

/-- IPHostname from k8sobjects: the value stored in the host map. -/
structure IPHostname where
  IP : String
  Hostname : String
deriving DecidableEq, Repr

/-- ObjHostMap content: the Go map of the ingress host cache rendered as an
association list keyed by the map key string. -/
abbrev ObjHostMap := List (String × IPHostname)

/-- Map update helper: Go map assignment, replacing any binding of the
key. -/
def hostMapInsert (m : ObjHostMap) (key : String) (v : IPHostname) : ObjHostMap :=
  (key, v) :: (List.filter (fun p => !(p.1 == key)) m)

/-- UpdateHostMap on IngressHostMeta: stores the IP and hostname of the
object under the key. -/
def IngressHostMeta.UpdateHostMap (ing : IngressHostMeta) (m : ObjHostMap)
    (key : String) : ObjHostMap :=
  hostMapInsert m key { IP := ing.IPAddr, Hostname := ing.Hostname }

/-- GetHostnameFromHostMap on IngressHostMeta: the stored hostname, or the
empty string when the key is absent. -/
def IngressHostMeta.GetHostnameFromHostMap (ing : IngressHostMeta)
    (m : ObjHostMap) (key : String) : String :=
  match List.lookup key m with
  | none => ""
  | some ipHostname => ipHostname.Hostname

/-- DeleteMapByKey on IngressHostMeta: removes the binding of the key. -/
def IngressHostMeta.DeleteMapByKey (ing : IngressHostMeta) (m : ObjHostMap)
    (key : String) : ObjHostMap :=
  List.filter (fun p => !(p.1 == key)) m

/-- Modelled from the spec: the ClusterStore of gslbutils (its Go source is
not among the files at hand) keeps one object per cluster, namespace and
name triple; AddOrUpdate overwrites any entry under the same triple and
DeleteClusterNSObj, with parameters in the order cluster then namespace
then name, removes the entry if present and is a no-op otherwise. The
hierarchy of per-cluster and per-namespace maps is flattened to a map
keyed by the triple. -/
abbrev ClusterStore := List ((String × String × String) × IngressHostMeta)

/-- Modelled from the spec: AddOrUpdate of ClusterStore stores the object
under the cluster, namespace and name triple, overwriting rather than
duplicating. -/
def ClusterStore.AddOrUpdate (store : ClusterStore) (obj : IngressHostMeta)
    (cname ns objName : String) : ClusterStore :=
  ((cname, ns, objName), obj) ::
    List.filter (fun e => !(e.1 == (cname, ns, objName))) store

/-- Modelled from the spec: DeleteClusterNSObj of ClusterStore removes the
entry under the cluster, namespace and name triple if present. -/
def ClusterStore.DeleteClusterNSObj (store : ClusterStore)
    (cname ns objName : String) : ClusterStore :=
  List.filter (fun e => !(e.1 == (cname, ns, objName))) store

/-- Membership query of the store under a cluster, namespace and name
triple. -/
def ClusterStore.hasEntry (store : ClusterStore)
    (cname ns objName : String) : Bool :=
  store.any (fun e => e.1 == (cname, ns, objName))

/-- AddOrUpdateIngressStore from member_controllers.go: stores the ingress
host under its cluster name argument, namespace and object name. -/
def AddOrUpdateIngressStore (clusterRouteStore : ClusterStore)
    (ingHost : IngressHostMeta) (cname : String) : ClusterStore :=
  clusterRouteStore.AddOrUpdate ingHost cname ingHost.Namespace ingHost.ObjName

/-- DeleteFromIngressStore from member_controllers.go, argument order as in
the source: the call passes ObjName, then Namespace, then Cluster to
DeleteClusterNSObj, whose parameter order is cluster, namespace, name. -/
def DeleteFromIngressStore (clusterIngStore : ClusterStore)
    (ingHost : IngressHostMeta) (cname : String) : ClusterStore :=
  clusterIngStore.DeleteClusterNSObj ingHost.ObjName ingHost.Namespace ingHost.Cluster

/-- ExtractNamespaceObjectName from container-lib utils: splits the key on
the slash into namespace and name, or two empty strings when the key does
not have exactly two segments. -/
def ExtractNamespaceObjectName (key : String) : String × String :=
  match key.splitOn "/" with
  | [ns, name] => (ns, name)
  | _ => ("", "")

/-- Queue of keys published to the rest layer, holding tenant, name and
origin triples. -/
abbrev RestQueue := List (String × String × String)

/-- SyncFromRetryLayer from the retry package: extracts tenant and name
from the key, publishes to the graph layer queue (PublishKeyToRestLayer is
outside the sources at hand, so it is taken as a function argument covering
every possible publishing outcome) and returns nil unconditionally. -/
def SyncFromRetryLayer
    (publish : String → String → String → RestQueue → RestQueue)
    (key : String) (q : RestQueue) : RestQueue × Option String :=
  let tg := ExtractNamespaceObjectName key
  (publish tg.1 tg.2 "retry" q, none)

/-- Path list a host should get according to the spec sentence of C1: the
deduplicated union, in insertion order, of the path keys of ALL HTTP rules
of the ingress whose host matches, defaulting to the root path. -/
def c1SpecUnionPaths (host : String) (ingress : Ingress) : List String :=
  let pathList := ingress.Spec.Rules.foldl
    (fun acc rule =>
      if rule.Host == host then
        match rule.HTTP with
        | none => acc
        | some http => http.Paths.foldl (fun a p => dedupAppend a (pathKeyOf p)) acc
      else acc) []
  if pathList.length == 0 then ["/"] else pathList

/-- Path list a host gets according to the amended claim C1: the
deduplicated path keys of the FIRST rule whose host matches (later matching
rules are ignored because the source loop breaks), defaulting to the root
path. -/
def c1FirstRulePaths (host : String) (ingress : Ingress) : List String :=
  let pathList :=
    match ingress.Spec.Rules.find? (fun rule => rule.Host == host) with
    | none => []
    | some rule =>
      match rule.HTTP with
      | none => []
      | some http => http.Paths.foldl (fun a p => dedupAppend a (pathKeyOf p)) []
  if pathList.length == 0 then ["/"] else pathList

/-- Normalized application selector of a policy: the single label pair when
the selector map has exactly one entry, absent otherwise. -/
def gdpAppLabel (p : GlobalDeploymentPolicy) : Option Label :=
  if p.Spec.MatchRules.AppSelector.length == 1 then
    let kv := getLabelKeyAndValue p.Spec.MatchRules.AppSelector
    some { Key := kv.1, Value := kv.2 }
  else none

/-- Normalized namespace selector of a policy: the single label pair when
the selector map has exactly one entry, absent otherwise. -/
def gdpNSLabel (p : GlobalDeploymentPolicy) : Option Label :=
  if p.Spec.MatchRules.NamespaceSelector.length == 1 then
    let kv := getLabelKeyAndValue p.Spec.MatchRules.NamespaceSelector
    some { Key := kv.1, Value := kv.2 }
  else none

/-- Two policy documents that normalize to the same selectors, clusters and
weights, with field ordering allowed to differ: equal normalized selector
labels, and cluster and traffic split lists equal up to permutation. -/
abbrev gdpNormEq (p q : GlobalDeploymentPolicy) : Prop :=
  gdpAppLabel p = gdpAppLabel q ∧ gdpNSLabel p = gdpNSLabel q ∧
  p.Spec.MatchClusters.Perm q.Spec.MatchClusters ∧
  p.Spec.TrafficSplit.Perm q.Spec.TrafficSplit

/-- Filter content rebuilt from a policy document alone, following the
words of the spec: each selector filter is set exactly when its label map
has exactly one pair, the applicable clusters and the traffic split are
exactly those of the policy, and the checksum is computed over that
content. -/
def filterFromPolicy (p : GlobalDeploymentPolicy) : GlobalFilter :=
  let base : GlobalFilter :=
    { AppFilter := gdpAppLabel p,
      NSFilter :=
        if p.Spec.MatchRules.NamespaceSelector.length == 1 then
          some (createNewNSFilter p.Spec.MatchRules.NamespaceSelector)
        else none,
      TrafficSplit := p.Spec.TrafficSplit.map
        (fun ts => { ClusterName := ts.Cluster, Weight := ts.Weight }),
      ApplicableClusters := p.Spec.MatchClusters,
      Checksum := 0 }
  { base with Checksum := checksumOf base }

/-- Well-formedness of the cached NSFilter checksum: it equals the hash of
the filter label, which holds of every NamespaceFilter the code creates
(createNewNSFilter is the only constructor and nothing mutates the
field). -/
def nsFilterWF (gf : GlobalFilter) : Bool :=
  match gf.NSFilter with
  | none => true
  | some n => n.Checksum == utilsHash (n.FilterLabel.Key ++ n.FilterLabel.Value)

/-- Ingress fixture for C1: one host with two HTTP rules, carrying distinct
paths, both for that host. -/
def c1Ing : Ingress :=
  { Name := "ing1", Namespace := "ns1", Labels := [],
    Spec :=
      { Rules :=
          [ { Host := "a.test.com", HTTP := some { Paths := [{ Path := "/x" }] } },
            { Host := "a.test.com", HTTP := some { Paths := [{ Path := "/y" }] } } ],
        TLS := [] } }

/-- GlobalFilter fixture for C3: a filter already holding one traffic split
entry. -/
def c3gf0 : GlobalFilter :=
  { GetNewGlobalFilter with TrafficSplit := [{ ClusterName := "c1", Weight := 10 }] }

/-- Policy fixture for C3: a policy carrying one traffic split entry for a
different cluster. -/
def c3p : GlobalDeploymentPolicy :=
  { Namespace := "avi-system", Name := "gdp1",
    Spec := { MatchRules := { AppSelector := [], NamespaceSelector := [] },
              MatchClusters := ["c2"],
              TrafficSplit := [{ Cluster := "c2", Weight := 20 }] } }

/-- Ingress host fixture for C4. -/
def c4ihm : IngressHostMeta :=
  { Cluster := "c1", IngName := "ing1", ObjName := "ing1/host1",
    Namespace := "ns1", Hostname := "host1", IPAddr := "10.0.0.1",
    Labels := [], Paths := ["/"], TLS := false }

/-- Old policy fixture for C6: one cluster listed twice with different
weights. -/
def c6old : GlobalDeploymentPolicy :=
  { Namespace := "avi-system", Name := "gdp1",
    Spec := { MatchRules := { AppSelector := [], NamespaceSelector := [] },
              MatchClusters := ["a"],
              TrafficSplit := [{ Cluster := "a", Weight := 1 },
                               { Cluster := "a", Weight := 2 }] } }

/-- New policy fixture for C6: the same traffic split entries in the other
order. -/
def c6new : GlobalDeploymentPolicy :=
  { c6old with Spec :=
      { c6old.Spec with
          TrafficSplit := [{ Cluster := "a", Weight := 2 },
                           { Cluster := "a", Weight := 1 }] } }

/-- Old policy fixture for the C2 witness. -/
def c2wOld : GlobalDeploymentPolicy :=
  { Namespace := "avi-system", Name := "gdp1",
    Spec := { MatchRules := { AppSelector := [("app", "web")],
                              NamespaceSelector := [("team", "alpha")] },
              MatchClusters := ["a", "b"],
              TrafficSplit := [{ Cluster := "a", Weight := 1 },
                               { Cluster := "b", Weight := 2 }] } }

/-- New policy fixture for the C2 witness: same content as c2wOld with the
clusters and the traffic split entries listed in the other order. -/
def c2wNew : GlobalDeploymentPolicy :=
  { c2wOld with Spec :=
      { c2wOld.Spec with
          MatchClusters := ["b", "a"],
          TrafficSplit := [{ Cluster := "b", Weight := 2 },
                           { Cluster := "a", Weight := 1 }] } }

/-- Old policy fixture for the C6 witness: two distinct clusters. -/
def c6wOld : GlobalDeploymentPolicy :=
  { Namespace := "avi-system", Name := "gdp1",
    Spec := { MatchRules := { AppSelector := [], NamespaceSelector := [] },
              MatchClusters := ["a", "b"],
              TrafficSplit := [{ Cluster := "a", Weight := 1 },
                               { Cluster := "b", Weight := 2 }] } }

/-- New policy fixture for the C6 witness, reordered case: the same two
entries in the other order. -/
def c6wNew : GlobalDeploymentPolicy :=
  { c6wOld with Spec :=
      { c6wOld.Spec with
          TrafficSplit := [{ Cluster := "b", Weight := 2 },
                           { Cluster := "a", Weight := 1 }] } }

/-- New policy fixture for the C6 witness, removal case: cluster b gone,
cluster a keeping its weight. -/
def c6wRemoved : GlobalDeploymentPolicy :=
  { c6wOld with Spec :=
      { c6wOld.Spec with
          TrafficSplit := [{ Cluster := "a", Weight := 1 }] } }

/-- First GlobalFilter state fixture for the C5 witness. -/
def c5s1 : GlobalFilter :=
  { AppFilter := some { Key := "app", Value := "web" },
    NSFilter := some { FilterLabel := { Key := "team", Value := "alpha" },
                       SelectedNS := [("a", ["ns1"])],
                       Checksum := utilsHash "teamalpha" },
    TrafficSplit := [{ ClusterName := "a", Weight := 1 },
                     { ClusterName := "b", Weight := 2 }],
    ApplicableClusters := ["a", "b"],
    Checksum := 0 }

/-- Second GlobalFilter state fixture for the C5 witness: same labels and
the same multisets of clusters and traffic entries in a different order,
with a different selected namespace map and stale checksum field. -/
def c5s2 : GlobalFilter :=
  { AppFilter := some { Key := "app", Value := "web" },
    NSFilter := some { FilterLabel := { Key := "team", Value := "alpha" },
                       SelectedNS := [("b", ["ns2"])],
                       Checksum := utilsHash "teamalpha" },
    TrafficSplit := [{ ClusterName := "b", Weight := 2 },
                     { ClusterName := "a", Weight := 1 }],
    ApplicableClusters := ["b", "a"],
    Checksum := 7 }

/-- Metadata expected for the single host of c1Ing, used by the C1
witness. -/
def c1wMeta : IngressHostMeta :=
  { Cluster := "c1", IngName := "ing1", ObjName := "ing1/a.test.com",
    Namespace := "ns1", Hostname := "a.test.com", IPAddr := "10.0.0.1",
    Labels := [], Paths := ["/x"], TLS := false }

lemma presentInList_iff {s : String} {l : List String} :
    PresentInList s l = true ↔ s ∈ l := by
  rw [PresentInList, List.any_eq_true]
  constructor
  · rintro ⟨x, hx, hxs⟩
    rw [beq_iff_eq] at hxs
    exact hxs ▸ hx
  · intro h
    exact ⟨s, h, by simp⟩

lemma presentInList_false_of_not_mem {s : String} {l : List String}
    (h : s ∉ l) : PresentInList s l = false := by
  cases hp : PresentInList s l
  · rfl
  · exact absurd (presentInList_iff.mp hp) h

lemma lookup_filterOut_eq_none {β : Type} [BEq β] (key : String)
    (m : List (String × β)) :
    List.lookup key (List.filter (fun p => !(p.1 == key)) m) = none := by
  induction m with
  | nil => rfl
  | cons a t ih =>
    obtain ⟨k', v'⟩ := a
    rw [List.filter_cons]
    by_cases h : k' = key
    · subst h
      have hcond : (! ((k', v').1 == k')) = false := by simp
      rw [hcond]
      simpa using ih
    · have hcond : (! ((k', v').1 == key)) = true := by
        simp [beq_false_of_ne h]
      rw [hcond]
      simp only [if_true]
      rw [List.lookup_cons]
      have hk : (key == k') = false := beq_false_of_ne (Ne.symm h)
      simp only [hk]
      exact ih

/-- C4: the code slips on argument order. AddOrUpdateIngressStore stores
the ingress host under the triple (cluster, namespace, object name), but
DeleteFromIngressStore passes (object name, namespace, cluster) to
DeleteClusterNSObj, whose parameter order is cluster, namespace, name (as
its route and service siblings use it); deleting an object just added
therefore leaves the entry in the store. This theorem evaluates the code
at the failing input. -/
theorem c4_delete_after_add_leaves_entry :
    (DeleteFromIngressStore (AddOrUpdateIngressStore [] c4ihm "c1") c4ihm "c1").hasEntry
      "c1" "ns1" "ing1/host1" = true := by decide

/-- C7: an object whose cluster is not among the applicable clusters is
rejected by ApplyFilter, for ingress hosts and for routes alike, whatever
the namespace or application selector configuration is; in particular an
empty cluster list rejects everything and is never an allow-all. -/
theorem c7_applyFilter_cluster_not_selected_rejects :
    (∀ (ihm : IngressHostMeta) (gf : GlobalFilter),
      PresentInList ihm.Cluster gf.ApplicableClusters = false →
      ihm.ApplyFilter gf = false) ∧
    (∀ (route : RouteMeta) (gf : GlobalFilter),
      PresentInList route.Cluster gf.ApplicableClusters = false →
      route.ApplyFilter gf = false) ∧
    (∀ (ihm : IngressHostMeta) (gf : GlobalFilter),
      gf.ApplicableClusters = [] → ihm.ApplyFilter gf = false) ∧
    (∀ (route : RouteMeta) (gf : GlobalFilter),
      gf.ApplicableClusters = [] → route.ApplyFilter gf = false) := by
  refine ⟨fun ihm gf h => ?_, fun route gf h => ?_,
    fun ihm gf h => ?_, fun route gf h => ?_⟩
  · simp [IngressHostMeta.ApplyFilter, h]
  · simp [RouteMeta.ApplyFilter, h]
  · simp [IngressHostMeta.ApplyFilter, h, PresentInList]
  · simp [RouteMeta.ApplyFilter, h, PresentInList]

/-- C7 witness: a concrete ingress host and a concrete route are rejected
by a filter with an empty cluster list. -/
theorem c7_witness :
    IngressHostMeta.ApplyFilter c4ihm GetNewGlobalFilter = false ∧
    RouteMeta.ApplyFilter
      { Cluster := "c1", Name := "r1", Namespace := "ns1",
        Hostname := "h", IPAddr := "1.2.3.4", Labels := [], Paths := ["/"],
        TLS := false, Port := 443, Protocol := "TCP", Passthrough := true }
      GetNewGlobalFilter = false :=
  ⟨c7_applyFilter_cluster_not_selected_rejects.1 _ _ (by decide),
   c7_applyFilter_cluster_not_selected_rejects.2.1 _ _ (by decide)⟩

/-- C8: GetPort and GetProtocol fail with an unsupported error on every
ingress host and on every non-passthrough route, and return the stored
port and protocol without error on every passthrough route. Total
functions, so no panic is possible. -/
theorem c8_port_protocol_passthrough_only :
    (∀ ing : IngressHostMeta,
      ing.GetPort = Except.error "ingress object does not support GetPort function" ∧
      ing.GetProtocol = Except.error "ingress object does not support GetProtocol function") ∧
    (∀ route : RouteMeta, route.Passthrough = false →
      route.GetPort = Except.error "route object does not support GetPort function" ∧
      route.GetProtocol = Except.error "route object does not support GetProtocol support") ∧
    (∀ route : RouteMeta, route.Passthrough = true →
      route.GetPort = Except.ok route.Port ∧
      route.GetProtocol = Except.ok route.Protocol) := by
  refine ⟨fun ing => ⟨rfl, rfl⟩, fun route h => ?_, fun route h => ?_⟩
  · constructor <;> simp [RouteMeta.GetPort, RouteMeta.GetProtocol, h]
  · constructor <;> simp [RouteMeta.GetPort, RouteMeta.GetProtocol, h]

/-- C8 witness: concrete passthrough and non-passthrough routes. -/
theorem c8_witness :
    RouteMeta.GetPort
      { Cluster := "c1", Name := "r1", Namespace := "ns1",
        Hostname := "h", IPAddr := "1.2.3.4", Labels := [], Paths := [],
        TLS := false, Port := 443, Protocol := "TCP", Passthrough := true }
      = Except.ok 443 ∧
    RouteMeta.GetProtocol
      { Cluster := "c1", Name := "r2", Namespace := "ns1",
        Hostname := "h", IPAddr := "1.2.3.4", Labels := [], Paths := ["/"],
        TLS := true, Port := 0, Protocol := "", Passthrough := false }
      = Except.error "route object does not support GetProtocol support" :=
  ⟨(c8_port_protocol_passthrough_only.2.2 _ rfl).1,
   (c8_port_protocol_passthrough_only.2.1 _ rfl).2⟩

/-- C9: recalling a key that is absent from the host map yields the empty
string rather than an error, and after storing a key and then deleting it
the recall yields the empty string again. -/
theorem c9_hostMap_recall :
    (∀ (ing : IngressHostMeta) (m : ObjHostMap) (key : String),
      List.lookup key m = none → ing.GetHostnameFromHostMap m key = "") ∧
    (∀ (ing : IngressHostMeta) (m : ObjHostMap) (key : String),
      ing.GetHostnameFromHostMap (ing.DeleteMapByKey (ing.UpdateHostMap m key) key) key = "") := by
  constructor
  · intro ing m key h
    simp [IngressHostMeta.GetHostnameFromHostMap, h]
  · intro ing m key
    simp [IngressHostMeta.GetHostnameFromHostMap, IngressHostMeta.DeleteMapByKey,
      lookup_filterOut_eq_none]

/-- C9 witness: recall on the empty map, and the remember, forget, recall
round trip, at a concrete key. -/
theorem c9_witness :
    IngressHostMeta.GetHostnameFromHostMap c4ihm [] "c1/ns1/ing1/host1" = "" ∧
    IngressHostMeta.GetHostnameFromHostMap c4ihm
      (IngressHostMeta.DeleteMapByKey c4ihm
        (IngressHostMeta.UpdateHostMap c4ihm [] "c1/ns1/ing1/host1")
        "c1/ns1/ing1/host1")
      "c1/ns1/ing1/host1" = "" :=
  ⟨c9_hostMap_recall.1 c4ihm [] _ rfl, c9_hostMap_recall.2 c4ihm [] _⟩

/-- C10: SyncFromRetryLayer returns nil for every key, every queue state
and every possible behavior of the publishing function, so a failed
re-publish is invisible to the caller of the retry layer. -/
theorem c10_syncFromRetryLayer_returns_nil :
    ∀ (publish : String → String → String → RestQueue → RestQueue)
      (key : String) (q : RestQueue),
      (SyncFromRetryLayer publish key q).2 = none :=
  fun _ _ _ => rfl

/-- C6 counterexample: the two fixture policies carry the same set of
cluster and weight pairs in a different order, yet isTrafficWeightChanged
reports true, because the cluster name occurs twice with different weights
and the inner loop compares every same-cluster member. The claim, which
promises false for any reordering of the same set of pairs, fails here. -/
theorem c6_counterexample :
    c6new.Spec.TrafficSplit.Perm c6old.Spec.TrafficSplit ∧
    c6new.Spec.TrafficSplit ≠ c6old.Spec.TrafficSplit ∧
    isTrafficWeightChanged c6new c6old = true :=
  ⟨by decide, by decide, by decide⟩

/-- C6 amended: isTrafficWeightChanged returns true whenever some cluster
of the old traffic split is absent from the new one, and returns false
whenever the new traffic split is a reordering of the old one and the old
cluster names are pairwise distinct (the distinctness is forced by the
counterexample: with one cluster listed twice under different weights, a
reordering is reported as a change). -/
theorem c6_trafficWeightChanged_amended :
    (∀ oldGDP newGDP : GlobalDeploymentPolicy,
      (∃ o ∈ oldGDP.Spec.TrafficSplit,
        ∀ n ∈ newGDP.Spec.TrafficSplit, n.Cluster ≠ o.Cluster) →
      isTrafficWeightChanged newGDP oldGDP = true) ∧
    (∀ oldGDP newGDP : GlobalDeploymentPolicy,
      newGDP.Spec.TrafficSplit.Perm oldGDP.Spec.TrafficSplit →
      (oldGDP.Spec.TrafficSplit.map TrafficSplitElem.Cluster).Nodup →
      isTrafficWeightChanged newGDP oldGDP = false) := by
  constructor
  · intro oldGDP newGDP h
    obtain ⟨o, ho, habs⟩ := h
    rw [isTrafficWeightChanged]
    by_cases hlen :
        (oldGDP.Spec.TrafficSplit.length != newGDP.Spec.TrafficSplit.length) = true
    · rw [if_pos hlen]
    · rw [if_neg hlen]
      rw [List.any_eq_true]
      refine ⟨o, ho, ?_⟩
      have hfound :
          newGDP.Spec.TrafficSplit.any (fun n => n.Cluster == o.Cluster) = false := by
        rw [List.any_eq_false]
        intro n hn hx
        simp only [beq_iff_eq] at hx
        exact habs n hn hx
      simp [hfound]
  · intro oldGDP newGDP hperm hnodup
    rw [isTrafficWeightChanged]
    have hlen :
        (oldGDP.Spec.TrafficSplit.length != newGDP.Spec.TrafficSplit.length) = false := by
      simp [hperm.length_eq]
    rw [if_neg (by simp [hlen])]
    rw [List.any_eq_false]
    intro o ho
    have hfound :
        newGDP.Spec.TrafficSplit.any (fun n => n.Cluster == o.Cluster) = true := by
      rw [List.any_eq_true]
      exact ⟨o, hperm.mem_iff.mpr ho, by simp⟩
    have hwd :
        newGDP.Spec.TrafficSplit.any
          (fun n => n.Cluster == o.Cluster && n.Weight != o.Weight) = false := by
      rw [List.any_eq_false]
      intro n hn hcontra
      rw [Bool.and_eq_true] at hcontra
      obtain ⟨hc, hw⟩ := hcontra
      rw [beq_iff_eq] at hc
      have hno : n ∈ oldGDP.Spec.TrafficSplit := hperm.mem_iff.mp hn
      have hne : n = o := List.inj_on_of_nodup_map hnodup hno ho hc
      subst hne
      simp at hw
    simp [hfound, hwd]

/-- C6 witness: removing cluster b while cluster a keeps its weight is
reported as a change, and reordering two distinct clusters is not. -/
theorem c6_witness :
    isTrafficWeightChanged c6wRemoved c6wOld = true ∧
    isTrafficWeightChanged c6wNew c6wOld = false :=
  ⟨c6_trafficWeightChanged_amended.1 c6wOld c6wRemoved (by decide),
   c6_trafficWeightChanged_amended.2 c6wOld c6wNew (by decide) (by decide)⟩

lemma addToFilter_fresh_eq (p : GlobalDeploymentPolicy) :
    GetNewGlobalFilter.AddToFilter p = filterFromPolicy p := by
  unfold GlobalFilter.AddToFilter filterFromPolicy gdpAppLabel GetNewGlobalFilter
    GlobalFilter.ComputeChecksum
  cases hA : (p.Spec.MatchRules.AppSelector.length == 1) <;>
    cases hB : (p.Spec.MatchRules.NamespaceSelector.length == 1) <;>
      simp [hA, hB, checksumOf]

/-- C3 counterexample: AddToFilter on a filter that already holds a traffic
split entry appends the entries of the policy instead of replacing them, so
the resulting TrafficSplit is not the list rebuilt from the policy alone. -/
theorem c3_counterexample :
    (c3gf0.AddToFilter c3p).TrafficSplit =
      [{ ClusterName := "c1", Weight := 10 }, { ClusterName := "c2", Weight := 20 }] ∧
    (filterFromPolicy c3p).TrafficSplit = [{ ClusterName := "c2", Weight := 20 }] ∧
    (c3gf0.AddToFilter c3p).TrafficSplit ≠ (filterFromPolicy c3p).TrafficSplit :=
  ⟨by decide, by decide, by decide⟩

/-- C3 amended: on a freshly created filter, which is what every call site
passes (UpdateGlobalFilter builds the candidate on GetNewGlobalFilter and
the initial addition happens on the package-level fresh filter), AddToFilter
produces exactly the filter rebuilt from the policy document: selector
filters set iff their label map has exactly one pair, the applicable
clusters and the traffic split exactly those of the policy, and the
checksum computed over that content. On a filter with prior traffic split
entries the entries of the policy are appended instead. -/
theorem c3_addToFilter_fresh_rebuilds (p : GlobalDeploymentPolicy) :
    GetNewGlobalFilter.AddToFilter p = filterFromPolicy p :=
  addToFilter_fresh_eq p

lemma checksumOf_congr (g1 g2 : GlobalFilter)
    (hApp : g1.AppFilter = g2.AppFilter)
    (hNS : g1.NSFilter = g2.NSFilter)
    (hCl : g1.ApplicableClusters.Perm g2.ApplicableClusters)
    (hTS : g1.TrafficSplit.Perm g2.TrafficSplit) :
    checksumOf g1 = checksumOf g2 := by
  unfold checksumOf
  rw [hApp, hNS, (hCl.map utilsHash).sum_eq,
    (hTS.map (fun ts => utilsHash (ts.ClusterName ++ Nat.repr ts.Weight))).sum_eq]

lemma filterFromPolicy_NSFilter_eq (p q : GlobalDeploymentPolicy)
    (h : gdpNSLabel p = gdpNSLabel q) :
    (filterFromPolicy p).NSFilter = (filterFromPolicy q).NSFilter := by
  unfold gdpNSLabel at h
  unfold filterFromPolicy
  cases hp : (p.Spec.MatchRules.NamespaceSelector.length == 1) <;>
    cases hq : (q.Spec.MatchRules.NamespaceSelector.length == 1) <;>
      simp [hp, hq] at h ⊢
  simp [createNewNSFilter, h.1, h.2]

lemma filterFromPolicy_Checksum (p : GlobalDeploymentPolicy) :
    (filterFromPolicy p).Checksum = checksumOf (filterFromPolicy p) := rfl

lemma filterFromPolicy_checksum_eq (p q : GlobalDeploymentPolicy)
    (h : gdpNormEq p q) :
    (filterFromPolicy p).Checksum = (filterFromPolicy q).Checksum := by
  obtain ⟨hApp, hNS, hCl, hTS⟩ := h
  rw [filterFromPolicy_Checksum, filterFromPolicy_Checksum]
  apply checksumOf_congr
  · exact hApp
  · exact filterFromPolicy_NSFilter_eq p q hNS
  · exact hCl
  · exact hTS.map _

/-- C2: UpdateGlobalFilter compares the live checksum against the
checksum of a candidate built from the new policy on a fresh filter; on
equality it returns the live filter unchanged with (false, false), on
inequality it copies over the candidate fields and returns true together
with isTrafficWeightChanged of the two policies; and two policies that
normalize to the same selectors, clusters and weights, even with field
ordering differing, produce equal checksums and therefore (false, false)
with the live filter unchanged. -/
theorem c2_updateGlobalFilter_correct (gf : GlobalFilter)
    (oldGDP newGDP : GlobalDeploymentPolicy) :
    (gf.Checksum = (GetNewGlobalFilter.AddToFilter newGDP).Checksum →
      gf.UpdateGlobalFilter oldGDP newGDP = (gf, false, false)) ∧
    (gf.Checksum ≠ (GetNewGlobalFilter.AddToFilter newGDP).Checksum →
      gf.UpdateGlobalFilter oldGDP newGDP =
        ({ gf with
            AppFilter := (GetNewGlobalFilter.AddToFilter newGDP).AppFilter,
            NSFilter := (GetNewGlobalFilter.AddToFilter newGDP).NSFilter,
            TrafficSplit := (GetNewGlobalFilter.AddToFilter newGDP).TrafficSplit,
            ApplicableClusters := (GetNewGlobalFilter.AddToFilter newGDP).ApplicableClusters,
            Checksum := (GetNewGlobalFilter.AddToFilter newGDP).Checksum },
          true, isTrafficWeightChanged newGDP oldGDP)) ∧
    (gdpNormEq oldGDP newGDP →
      (GetNewGlobalFilter.AddToFilter oldGDP).UpdateGlobalFilter oldGDP newGDP =
        (GetNewGlobalFilter.AddToFilter oldGDP, false, false)) := by
  refine ⟨fun h => ?_, fun h => ?_, fun h => ?_⟩
  · rw [GlobalFilter.UpdateGlobalFilter, if_pos (by rw [beq_iff_eq]; exact h)]
  · rw [GlobalFilter.UpdateGlobalFilter, if_neg (by rw [beq_iff_eq]; exact h)]
  · have hck : (GetNewGlobalFilter.AddToFilter oldGDP).Checksum
        = (GetNewGlobalFilter.AddToFilter newGDP).Checksum := by
      rw [addToFilter_fresh_eq, addToFilter_fresh_eq]
      exact filterFromPolicy_checksum_eq oldGDP newGDP h
    rw [GlobalFilter.UpdateGlobalFilter, if_pos (by rw [beq_iff_eq]; exact hck)]

/-- C2 witness: two concrete policies with identical selectors whose
cluster list and traffic split are reordered normalize equal, and the
update on the live filter built from the old one reports no change. -/
theorem c2_witness :
    gdpNormEq c2wOld c2wNew ∧
    (GetNewGlobalFilter.AddToFilter c2wOld).UpdateGlobalFilter c2wOld c2wNew =
      (GetNewGlobalFilter.AddToFilter c2wOld, false, false) :=
  ⟨by decide,
   (c2_updateGlobalFilter_correct GetNewGlobalFilter c2wOld c2wNew).2.2 (by decide)⟩

lemma nsFilterWF_GetNewGlobalFilter : nsFilterWF GetNewGlobalFilter = true := rfl

lemma nsFilterWF_addToFilter (gf : GlobalFilter) (p : GlobalDeploymentPolicy)
    (h : nsFilterWF gf = true) : nsFilterWF (gf.AddToFilter p) = true := by
  unfold nsFilterWF GlobalFilter.AddToFilter GlobalFilter.ComputeChecksum at *
  cases hA : (p.Spec.MatchRules.AppSelector.length == 1) <;>
    cases hB : (p.Spec.MatchRules.NamespaceSelector.length == 1) <;>
      simp [hA, hB, createNewNSFilter] <;> exact h

/-- C5: ComputeChecksum is order-independent. Two filter states with the
same application filter, namespace filters carrying the same label (their
cached checksums being the hash of that label, as every NamespaceFilter
the code creates satisfies: createNewNSFilter is the only constructor, see
nsFilterWF_addToFilter), and cluster and traffic split lists equal up to
permutation receive the same checksum, because the checksum is a sum of
per-element hashes and addition commutes. -/
theorem c5_computeChecksum_order_independent (s1 s2 : GlobalFilter)
    (happ : s1.AppFilter = s2.AppFilter)
    (hns : Option.map NamespaceFilter.FilterLabel s1.NSFilter
         = Option.map NamespaceFilter.FilterLabel s2.NSFilter)
    (hwf1 : nsFilterWF s1 = true) (hwf2 : nsFilterWF s2 = true)
    (hcl : s1.ApplicableClusters.Perm s2.ApplicableClusters)
    (hts : s1.TrafficSplit.Perm s2.TrafficSplit) :
    s1.ComputeChecksum.Checksum = s2.ComputeChecksum.Checksum := by
  unfold nsFilterWF at hwf1 hwf2
  have hnsck : (match s1.NSFilter with
      | some n => n.Checksum
      | none => 0)
      = (match s2.NSFilter with
      | some n => n.Checksum
      | none => 0) := by
    cases h1 : s1.NSFilter with
    | none =>
      cases h2 : s2.NSFilter with
      | none => rfl
      | some n2 => rw [h1, h2] at hns; simp at hns
    | some n1 =>
      cases h2 : s2.NSFilter with
      | none => rw [h1, h2] at hns; simp at hns
      | some n2 =>
        rw [h1, h2] at hns
        simp at hns
        rw [h1] at hwf1
        rw [h2] at hwf2
        simp only [beq_iff_eq] at hwf1 hwf2
        show n1.Checksum = n2.Checksum
        rw [hwf1, hwf2, hns]
  show checksumOf s1 = checksumOf s2
  unfold checksumOf
  rw [happ, hnsck, (hcl.map utilsHash).sum_eq,
    (hts.map (fun ts => utilsHash (ts.ClusterName ++ Nat.repr ts.Weight))).sum_eq]

/-- C5 witness: the two concrete fixture states, differing in list order,
selected namespaces and stale checksum field, receive the same computed
checksum. -/
theorem c5_witness :
    c5s1.ComputeChecksum.Checksum = c5s2.ComputeChecksum.Checksum :=
  c5_computeChecksum_order_independent c5s1 c5s2 rfl rfl (by decide) (by decide)
    (by decide) (by decide)

lemma getPathsForHostLoop_eq_find (host : String) (rules : List IngressRule) :
    getPathsForHostLoop host rules =
      match rules.find? (fun rule => rule.Host == host) with
      | none => []
      | some rule =>
        match rule.HTTP with
        | none => []
        | some http => http.Paths.foldl (fun acc p => dedupAppend acc (pathKeyOf p)) [] := by
  induction rules with
  | nil => rfl
  | cons r rest ih =>
    rw [getPathsForHostLoop]
    cases hr : (r.Host == host)
    · have hb : (r.Host != host) = true := by simp [bne, hr]
      rw [hb]
      simp only [if_true]
      rw [List.find?_cons_of_neg _ (by simp [hr])]
      exact ih
    · have hb : (r.Host != host) = false := by simp [bne, hr]
      rw [hb]
      simp only [Bool.false_eq_true, if_false]
      rw [List.find?_cons_of_pos _ (by simp [hr])]

lemma getPathsForHost_eq_c1First (host : String) (ingress : Ingress) :
    getPathsForHost host ingress = c1FirstRulePaths host ingress := by
  unfold getPathsForHost c1FirstRulePaths
  rw [getPathsForHostLoop_eq_find]

lemma mem_dedupAppend {a s : String} {acc : List String} :
    s ∈ dedupAppend acc a ↔ s ∈ acc ∨ s = a := by
  unfold dedupAppend
  by_cases h : PresentInList a acc = true
  · rw [if_pos h]
    constructor
    · exact Or.inl
    · rintro (h' | h')
      · exact h'
      · exact h' ▸ presentInList_iff.mp h
  · rw [if_neg h]
    simp [List.mem_append]

lemma mem_foldl_dedupAppend (l : List String) (acc : List String) (s : String) :
    s ∈ l.foldl dedupAppend acc ↔ s ∈ acc ∨ s ∈ l := by
  induction l generalizing acc with
  | nil => simp
  | cons a t ih =>
    rw [List.foldl_cons, ih, mem_dedupAppend]
    simp [List.mem_cons]
    tauto

lemma mem_foldl_tlsHosts (l : List IngressTLS) (acc : List String) (s : String) :
    s ∈ l.foldl (fun acc t => t.Hosts.foldl dedupAppend acc) acc ↔
      s ∈ acc ∨ ∃ t ∈ l, s ∈ t.Hosts := by
  induction l generalizing acc with
  | nil => simp
  | cons a t ih =>
    rw [List.foldl_cons, ih, mem_foldl_dedupAppend]
    simp
    tauto

lemma mem_getTLSHosts (ingress : Ingress) (s : String) :
    s ∈ getTLSHosts ingress ↔ ∃ t ∈ ingress.Spec.TLS, s ∈ t.Hosts := by
  unfold getTLSHosts
  rw [mem_foldl_tlsHosts]
  simp

/-- C1 counterexample: c1Ing has two rules for the same host carrying the
distinct paths /x and /y; the constructed metadata path list holds only
/x, because getPathsForHost breaks after the first matching rule, while
the claimed deduplicated union over all matching rules is /x, /y. -/
theorem c1_counterexample :
    (GetIngressHostMeta c1Ing "c1"
        [{ Hostname := "a.test.com", IPAddr := "10.0.0.1" }]).map
      IngressHostMeta.Paths = [["/x"]] ∧
    c1SpecUnionPaths "a.test.com" c1Ing = ["/x", "/y"] ∧
    (["/x"] : List String) ≠ ["/x", "/y"] :=
  ⟨by decide, by decide, by decide⟩

/-- C1 amended: for every constructed ingress host metadata, the path list
is the deduplicated path list of the FIRST HTTP rule whose host matches
(the source loop breaks after the first matching rule, so later matching
rules contribute nothing), defaulting to the root path, and the TLS flag
is true iff the host appears in the TLS hosts of the ingress. -/
theorem c1_first_rule_paths_and_tls (ingress : Ingress) (cname : String)
    (hostIPList : List IngressHostIP) (m : IngressHostMeta)
    (hm : m ∈ GetIngressHostMeta ingress cname hostIPList) :
    m.Paths = c1FirstRulePaths m.Hostname ingress ∧
    (m.TLS = true ↔ ∃ t ∈ ingress.Spec.TLS, m.Hostname ∈ t.Hosts) := by
  unfold GetIngressHostMeta at hm
  rw [List.mem_map] at hm
  obtain ⟨hip, hhip, rfl⟩ := hm
  constructor
  · show getPathsForHost hip.Hostname ingress = c1FirstRulePaths _ ingress
    exact getPathsForHost_eq_c1First _ _
  · show PresentInList hip.Hostname (getTLSHosts ingress) = true ↔ _
    rw [presentInList_iff, mem_getTLSHosts]

/-- C1 witness: the single metadata object produced for c1Ing is a member
of the constructed list and satisfies the amended path and TLS
properties. -/
theorem c1_witness :
    c1wMeta ∈ GetIngressHostMeta c1Ing "c1"
      [{ Hostname := "a.test.com", IPAddr := "10.0.0.1" }] ∧
    c1wMeta.Paths = c1FirstRulePaths c1wMeta.Hostname c1Ing ∧
    (c1wMeta.TLS = true ↔ ∃ t ∈ c1Ing.Spec.TLS, c1wMeta.Hostname ∈ t.Hosts) :=
  ⟨by decide,
   (c1_first_rule_paths_and_tls c1Ing "c1"
     [{ Hostname := "a.test.com", IPAddr := "10.0.0.1" }] c1wMeta (by decide)).1,
   (c1_first_rule_paths_and_tls c1Ing "c1"
     [{ Hostname := "a.test.com", IPAddr := "10.0.0.1" }] c1wMeta (by decide)).2⟩
